import Mathlib

/-!
Verification development for the bgutil-ytdlp-pot-provider-rs core: a shallow
embedding of the session manager (`src/session/manager.rs`), the proxy / cache-key
logic (`src/session/network.rs`), the deprecated-field middleware
(`src/server/handlers.rs`) and the internal data types (`src/types/internal.rs`,
`src/types/request.rs`, `src/types/response.rs`).

Modelling conventions:
* Timestamps (`chrono::DateTime<Utc>`, `time::OffsetDateTime`) are unix seconds
  as `Int`; `Duration::hours(h)` is `h * 3600` seconds.
* `HashMap<String, _>` is an association list with insert-replaces semantics;
  `u32` is `Nat` (all arithmetic in the embedded paths is non-overflowing:
  `min`, `/ 2`).
* Effectful collaborators of the session manager (the BotGuard worker thread,
  the Innertube provider, the environment and the clock) are an explicit oracle
  record `BotguardWorld` threaded through the functions; fallible Rust code
  returning `Result<T>` becomes `Except Err T`.
* Rust `String::len` / `is_empty` are byte-based, embedded via
  `String.utf8ByteSize`.
-/

/-- JSON values as in `serde_json::Value` (numbers are irrelevant to the
embedded paths and kept as `Int`). Object member access `Value::get` is
first-match lookup. -/
inductive Json where
  | null
  | bool (b : Bool)
  | num (n : Int)
  | str (s : String)
  | arr (xs : List Json)
  | obj (fields : List (String × Json))

/-- `serde_json::Value::get(key)` on objects, `None` otherwise. -/
def Json.getKey : Json → String → Option Json
  | .obj fields, k => (fields.find? (fun p => p.1 == k)).map (·.2)
  | _, _ => none

/-- `serde_json::Value::as_str`. -/
def Json.asStr : Json → Option String
  | .str s => some s
  | _ => none

/-- `serde_json::Map::contains_key` (exact, case-sensitive string equality),
false on non-objects. -/
def Json.containsKey : Json → String → Bool
  | .obj fields, k => fields.any (fun p => p.1 == k)
  | _, _ => false

/-- `serde_json::Value::is_object` / `as_object().is_some()`. -/
def Json.isObj : Json → Bool
  | .obj _ => true
  | _ => false

/-- The error kinds (`src/error/types.rs`) reachable from the embedded paths. -/
inductive Err where
  | visitorData (reason : String) (context : Option String)
  | tokenGeneration (reason : String) (stage : Option String)
  | botguard (code : String) (message : String)
  | session (message : String)
deriving DecidableEq, Repr

/-- `Error::token_generation` (`src/error/types.rs` L260): stage is `None`. -/
def Err.token_generation (reason : String) : Err := .tokenGeneration reason none

/-- The `Display` rendering of the embedded error kinds (the `#[error(...)]`
attributes in `src/error/types.rs`), used by `format!("...: {}", e)`. -/
def Err.render : Err → String
  | .visitorData reason _ => "Visitor data generation failed: " ++ reason
  | .tokenGeneration reason _ => "Token generation failed: " ++ reason
  | .botguard code message => "BotGuard error (" ++ code ++ "): " ++ message
  | .session message => "Session error: " ++ message

/-- `SessionData` (`src/types/internal.rs` L11). -/
structure SessionData where
  po_token : String
  content_binding : String
  expires_at : Int
deriving DecidableEq, Repr

/-- `TokenMinterEntry` (`src/types/internal.rs` L203). -/
structure TokenMinterEntry where
  expiry : Int
  integrity_token : String
  estimated_ttl_secs : Nat
  mint_refresh_threshold : Nat
  websafe_fallback_token : Option String
deriving DecidableEq, Repr

/-- `TokenMinterEntry::new` (`src/types/internal.rs` L218). -/
def TokenMinterEntry.new (expiry : Int) (integrity_token : String)
    (estimated_ttl_secs mint_refresh_threshold : Nat)
    (websafe_fallback_token : Option String) : TokenMinterEntry :=
  ⟨expiry, integrity_token, estimated_ttl_secs, mint_refresh_threshold,
    websafe_fallback_token⟩

/-- `TokenMinterEntry::is_expired` (`src/types/internal.rs` L235):
`Utc::now() > self.expiry`, with the call-time clock made explicit. -/
def TokenMinterEntry.is_expired (e : TokenMinterEntry) (now : Int) : Bool :=
  decide (now > e.expiry)

/-- `PotResponse` (`src/types/response.rs`). -/
structure PotResponse where
  po_token : String
  content_binding : String
  expires_at : Int
deriving DecidableEq, Repr

/-- `PotResponse::from_session_data` (`src/types/response.rs` L48). -/
def PotResponse.from_session_data (d : SessionData) : PotResponse :=
  ⟨d.po_token, d.content_binding, d.expires_at⟩

/-- `PotRequest` (`src/types/request.rs` L50); `challenge` and
`innertube_context` keep their raw JSON. -/
structure PotRequest where
  content_binding : Option String
  proxy : Option String
  bypass_cache : Option Bool
  challenge : Option Json
  disable_innertube : Option Bool
  disable_tls_verification : Option Bool
  innertube_context : Option Json
  source_address : Option String

/-- `ProxySpec` (`src/session/network.rs` L13). -/
structure ProxySpec where
  proxy_url : Option String
  source_address : Option String
  disable_tls_verification : Bool
  ip_family : Option Nat
deriving DecidableEq, Repr

/-- `ProxySpec::new` / `Default` (`src/session/network.rs` L26). -/
def ProxySpec.new : ProxySpec := ⟨none, none, false, none⟩

/-- `ProxySpec::with_proxy` (`src/session/network.rs` L31). -/
def ProxySpec.with_proxy (p : ProxySpec) (proxy_url : String) : ProxySpec :=
  { p with proxy_url := some proxy_url }

/-- `ProxySpec::with_source_address` (`src/session/network.rs` L37): also sets
`ip_family` from whether the address contains a colon. -/
def ProxySpec.with_source_address (p : ProxySpec) (addr : String) : ProxySpec :=
  { p with ip_family := some (if addr.contains ':' then 6 else 4),
           source_address := some addr }

/-- `ProxySpec::with_disable_tls_verification` (`src/session/network.rs` L45). -/
def ProxySpec.with_disable_tls_verification (p : ProxySpec) (d : Bool) : ProxySpec :=
  { p with disable_tls_verification := d }

/-- `ProxySpec::cache_key` (`src/session/network.rs` L52). -/
def ProxySpec.cache_key (p : ProxySpec) (remote_host : Option String) : String :=
  match remote_host with
  | some ip => ip
  | none =>
    match p.proxy_url, p.source_address with
    | some proxy, some source => proxy ++ ":" ++ source
    | some proxy, none => "proxy:" ++ proxy
    | none, some source => "source:" ++ source
    | none, none => "default"

/-- The three proxy environment variables read by `create_proxy_spec`
(`src/session/manager.rs` L391): `std::env::var` returning `Ok` is `some`. -/
structure ProxyEnv where
  https_proxy : Option String
  http_proxy : Option String
  all_proxy : Option String

/-- Oracle for the session manager's effectful collaborators during one
`generate_pot_token` call: the clock (`Utc::now()`), the BotGuard worker
(`get_expiry_info`, `generate_po_token`/`mint_token`, `reinitialize` — the
latter always returns `Ok` in `BotGuardClient::reinitialize`, so only the
post-reinitialization expiry query is an oracle), and the Innertube provider
(`generate_visitor_data`). -/
structure BotguardWorld where
  now : Int
  expiryInfo : Option (Int × Nat)
  expiryInfoAfterReinit : Option (Int × Nat)
  mint : String → Except Err String
  visitorData : Except Err String

/-- First-match association-list lookup, modelling `HashMap::get`. -/
def lookupA {α : Type} (m : List (String × α)) (k : String) : Option α :=
  (m.find? (fun p => p.1 == k)).map (·.2)

/-- Association-list insert with replacement, modelling `HashMap::insert`. -/
def insertA {α : Type} (m : List (String × α)) (k : String) (v : α) :
    List (String × α) :=
  (k, v) :: m.filter (fun p => p.1 != k)

/-- Key list of an association list, modelling `HashMap::keys`. -/
def keysA {α : Type} (m : List (String × α)) : List String := m.map (·.1)

/-- The two caches owned by `SessionManagerGeneric`
(`src/session/manager.rs` L84-86). -/
structure ManagerState where
  sessionCache : List (String × SessionData)
  minterCache : List (String × TokenMinterEntry)
deriving DecidableEq, Repr

/-- `generate_visitor_data` (`src/session/manager.rs` L283): fetch from the
Innertube provider, reject empty (`is_empty`, i.e. byte length 0) and
short (< 10 bytes) results. -/
def generate_visitor_data (w : BotguardWorld) : Except Err String :=
  match w.visitorData with
  | .error e => .error e
  | .ok visitor_data =>
    if visitor_data.utf8ByteSize == 0 then
      .error (.visitorData "Generated visitor data is empty"
        (some "visitor_data_generation"))
    else if visitor_data.utf8ByteSize < 10 then
      .error (.visitorData "Generated visitor data is too short"
        (some "visitor_data_validation"))
    else .ok visitor_data

/-- `get_content_binding` (`src/session/manager.rs` L372). -/
def get_content_binding (w : BotguardWorld) (request : PotRequest) :
    Except Err String :=
  match request.content_binding with
  | some binding => .ok binding
  | none => generate_visitor_data w

/-- `create_proxy_spec` (`src/session/manager.rs` L383): request proxy first,
then `HTTPS_PROXY` / `HTTP_PROXY` / `ALL_PROXY` in that order. -/
def create_proxy_spec (env : ProxyEnv) (request : PotRequest) : ProxySpec :=
  let spec := ProxySpec.new
  let spec :=
    match request.proxy with
    | some proxy => spec.with_proxy proxy
    | none =>
      match env.https_proxy <|> env.http_proxy <|> env.all_proxy with
      | some proxy => spec.with_proxy proxy
      | none => spec
  let spec :=
    match request.source_address with
    | some source_address => spec.with_source_address source_address
    | none => spec
  spec.with_disable_tls_verification
    (request.disable_tls_verification.getD false)

/-- The `remote_host` extraction of `create_cache_key`
(`src/session/manager.rs` L414): `innertube_context.client.remoteHost`
as a string. -/
def extract_remote_host (request : PotRequest) : Option String :=
  ((request.innertube_context.bind (fun ctx => ctx.getKey "client")).bind
    (fun client => client.getKey "remoteHost")).bind Json.asStr

/-- `create_cache_key` (`src/session/manager.rs` L412) (always `Ok` in the
source; the `Result` wrapper is dropped). -/
def create_cache_key (proxy_spec : ProxySpec) (request : PotRequest) : String :=
  proxy_spec.cache_key (extract_remote_host request)

/-- `get_botguard_expiry_as_chrono` (`src/session/manager.rs` L534):
`None` from the worker becomes a `TokenGeneration` error. The
timestamp conversion cannot fail in the `Int` model. -/
def get_botguard_expiry (info : Option (Int × Nat)) : Except Err (Int × Nat) :=
  match info with
  | none => .error (Err.token_generation "Cannot get BotGuard expiry info")
  | some (valid_until, lifetime_secs) => .ok (valid_until, lifetime_secs)

/-- `create_token_minter_entry` (`src/session/manager.rs` L554): mint an
integrity token for `"integrity_token_request"`, threshold
`min(300, lifetime_secs / 2)`, no websafe fallback. -/
def create_token_minter_entry (w : BotguardWorld) (expires_at : Int)
    (lifetime_secs : Nat) : Except Err TokenMinterEntry :=
  match w.mint "integrity_token_request" with
  | .error e =>
    .error (Err.token_generation
      ("Failed to generate integrity token: " ++ e.render))
  | .ok integrity_token =>
    .ok (TokenMinterEntry.new expires_at integrity_token lifetime_secs
      (min 300 (lifetime_secs / 2)) none)

/-- `generate_token_minter` (`src/session/manager.rs` L476), with the returned
`Bool` recording whether the `reinitialize()` workaround path ran. The
expired-snapshot check is `expires_at < now` (strict); after reinitialization
the re-queried expiry is used to build the entry without a further past-check
(`BotGuardClient::reinitialize` itself always returns `Ok`). -/
def generate_token_minter (w : BotguardWorld) :
    Except Err (TokenMinterEntry × Bool) :=
  match get_botguard_expiry w.expiryInfo with
  | .error e => .error e
  | .ok (expires_at, lifetime_secs) =>
    if expires_at < w.now then
      match get_botguard_expiry w.expiryInfoAfterReinit with
      | .error e =>
        .error (Err.token_generation
          ("Cannot get BotGuard expiry info after reinitialization: "
            ++ e.render))
      | .ok (new_expires_at, new_lifetime_secs) =>
        match create_token_minter_entry w new_expires_at new_lifetime_secs with
        | .error e => .error e
        | .ok entry => .ok (entry, true)
    else
      match create_token_minter_entry w expires_at lifetime_secs with
      | .error e => .error e
      | .ok entry => .ok (entry, false)

/-- The miss branch of `get_or_create_token_minter`
(`src/session/manager.rs` L460-470): generate and insert. -/
def mint_new_token_minter (w : BotguardWorld) (st : ManagerState)
    (cache_key : String) : Except Err (TokenMinterEntry × ManagerState) :=
  match generate_token_minter w with
  | .error e => .error e
  | .ok (new_minter, _reinit) =>
    .ok (new_minter,
      { st with minterCache := insertA st.minterCache cache_key new_minter })

/-- `get_or_create_token_minter` (`src/session/manager.rs` L444). -/
def get_or_create_token_minter (w : BotguardWorld) (st : ManagerState)
    (cache_key : String) : Except Err (TokenMinterEntry × ManagerState) :=
  match lookupA st.minterCache cache_key with
  | some minter =>
    if minter.is_expired w.now then mint_new_token_minter w st cache_key
    else .ok (minter, st)
  | none => mint_new_token_minter w st cache_key

/-- `mint_pot_token` (`src/session/manager.rs` L613): the content binding is
used verbatim as the mint identifier; `expires_at = now + 6h`
(`token_ttl_hours = 6`). -/
def mint_pot_token (w : BotguardWorld) (content_binding : String) :
    Except Err SessionData :=
  match w.mint content_binding with
  | .error e => .error e
  | .ok po_token => .ok ⟨po_token, content_binding, w.now + 6 * 3600⟩

/-- `cleanup_caches` (`src/session/manager.rs` L437): retain session entries
with `expires_at > now`. -/
def cleanup_caches (now : Int) (st : ManagerState) : ManagerState :=
  { st with sessionCache :=
      st.sessionCache.filter (fun p => decide (p.2.expires_at > now)) }

/-- Result of one `generate_pot_token` call: the response, the manager state
afterwards, and whether the fresh-mint path ran (`false` means the call was
answered from the token cache). -/
structure GenerateOutcome where
  response : PotResponse
  state : ManagerState
  minted : Bool
deriving DecidableEq, Repr

/-- `generate_pot_token` (`src/session/manager.rs` L239).
`initialize_botguard` is a no-op here because `BotGuardClient::initialize`
always returns `Ok` (worker-construction failures happen inside the spawned
thread and are not propagated). -/
def generate_pot_token (w : BotguardWorld) (env : ProxyEnv) (st : ManagerState)
    (request : PotRequest) : Except Err GenerateOutcome :=
  match get_content_binding w request with
  | .error e => .error e
  | .ok content_binding =>
    let st1 := cleanup_caches w.now st
    let hit :=
      if request.bypass_cache.getD false then none
      else lookupA st1.sessionCache content_binding
    match hit with
    | some cached_data =>
      .ok ⟨PotResponse.from_session_data cached_data, st1, false⟩
    | none =>
      let proxy_spec := create_proxy_spec env request
      let cache_key := create_cache_key proxy_spec request
      match get_or_create_token_minter w st1 cache_key with
      | .error e => .error e
      | .ok (_token_minter, st2) =>
        match mint_pot_token w content_binding with
        | .error e => .error e
        | .ok session_data =>
          let newSessionCache :=
            insertA st2.sessionCache content_binding session_data
          let st3 := { st2 with sessionCache := newSessionCache }
          .ok ⟨PotResponse.from_session_data session_data, st3, true⟩

/-- `invalidate_integrity_tokens` (`src/session/manager.rs` L328): set every
minter entry's expiry to `DateTime::from_timestamp(0, 0)`, the epoch origin. -/
def invalidate_integrity_tokens (st : ManagerState) : ManagerState :=
  { st with minterCache :=
      st.minterCache.map (fun p => (p.1, { p.2 with expiry := 0 })) }

/-- `get_minter_cache_keys` (`src/session/manager.rs` L343). -/
def get_minter_cache_keys (st : ManagerState) : List String :=
  keysA st.minterCache

/-! ### Server surface: deprecated-field middleware and the `/get_pot` handler
(`src/server/handlers.rs`) -/

/-- The decision taken by `validate_deprecated_fields_middleware`: either reply
with an HTTP status and an `ErrorResponse` (`error`, `context`) without running
the inner handler, or forward the request. -/
inductive MiddlewareOutcome where
  | reject (status : Nat) (error : String) (context : String)
  | forward
deriving DecidableEq, Repr

/-- `validate_deprecated_fields_middleware` (`src/server/handlers.rs` L20):
only `POST /get_pot` bodies are inspected; a parsed JSON object containing the
exact key `data_sync_id` or `visitor_data` is rejected with 400; everything
else (other routes, unparsable bodies, non-object JSON) is forwarded. The
request body, already read, is a parse result (`none` = not valid JSON). -/
def validate_deprecated_fields_middleware (method path : String)
    (parsedBody : Option Json) : MiddlewareOutcome :=
  if method != "POST" || path != "/get_pot" then .forward
  else
    match parsedBody with
    | none => .forward
    | some json_value =>
      if json_value.isObj then
        if json_value.containsKey "data_sync_id" then
          .reject 400 "data_sync_id is deprecated, use content_binding instead"
            "deprecated_field_validation"
        else if json_value.containsKey "visitor_data" then
          .reject 400 "visitor_data is deprecated, use content_binding instead"
            "deprecated_field_validation"
        else .forward
      else .forward

/-- serde deserialization of an `Option<String>` struct field: missing or
`null` is `None`, a string is `Some`, anything else is a type error. -/
def parseOptStrField (j : Json) (k : String) : Option (Option String) :=
  match j.getKey k with
  | none => some none
  | some Json.null => some none
  | some (Json.str s) => some (some s)
  | some _ => none

/-- serde deserialization of an `Option<bool>` struct field. -/
def parseOptBoolField (j : Json) (k : String) : Option (Option Bool) :=
  match j.getKey k with
  | none => some none
  | some Json.null => some none
  | some (Json.bool b) => some (some b)
  | some _ => none

/-- serde deserialization of an `Option<serde_json::Value>` field
(`innertube_context`): any non-null value is accepted. -/
def parseOptJsonField (j : Json) (k : String) : Option (Option Json) :=
  match j.getKey k with
  | none => some none
  | some Json.null => some none
  | some v => some (some v)

/-- Shape check for the untagged `Challenge` enum
(`src/types/request.rs` L10): a string, or a `ChallengeData` object with the
five required fields (`interpreterUrl` wrapping a string, and four strings). -/
def challengeShapeOk : Json → Bool
  | .str _ => true
  | .obj fields =>
    let j := Json.obj fields
    (match j.getKey "interpreterUrl" with
      | some u =>
        ((u.getKey "privateDoNotAccessOrElseTrustedResourceUrlWrappedValue").bind
          Json.asStr).isSome
      | none => false)
    && ((j.getKey "interpreterHash").bind Json.asStr).isSome
    && ((j.getKey "program").bind Json.asStr).isSome
    && ((j.getKey "globalName").bind Json.asStr).isSome
    && ((j.getKey "clientExperimentsStateBlob").bind Json.asStr).isSome
  | _ => false

/-- serde deserialization of `PotRequest` from a JSON value
(`serde_json::from_slice::<PotRequest>` in `generate_pot`,
`src/server/handlers.rs` L88): all fields optional, unknown fields ignored,
non-object bodies and ill-typed fields are errors. -/
def parsePotRequest (j : Json) : Option PotRequest :=
  match j with
  | .obj _ => do
    let content_binding ← parseOptStrField j "content_binding"
    let proxy ← parseOptStrField j "proxy"
    let bypass_cache ← parseOptBoolField j "bypass_cache"
    let challenge ← parseOptJsonField j "challenge"
    match challenge with
    | some c => if challengeShapeOk c then pure () else none
    | none => pure ()
    let disable_innertube ← parseOptBoolField j "disable_innertube"
    let disable_tls_verification ← parseOptBoolField j "disable_tls_verification"
    let innertube_context ← parseOptJsonField j "innertube_context"
    let source_address ← parseOptStrField j "source_address"
    pure ⟨content_binding, proxy, bypass_cache, challenge, disable_innertube,
      disable_tls_verification, innertube_context, source_address⟩
  | _ => none

/-- The reply of the `/get_pot` route: a middleware rejection (mint path never
run), a 422 for bodies that do not deserialize to `PotRequest`, or the result
of `SessionManagerGeneric::generate_pot_token` (200 on `Ok`, 500 on `Err`). -/
inductive ServerReply where
  | rejected (status : Nat) (error : String) (context : String)
  | badJson
  | potResult (r : Except Err GenerateOutcome)
deriving Repr

/-- `POST /get_pot` end to end: `validate_deprecated_fields_middleware` wrapped
around `generate_pot` (`src/server/handlers.rs` L83). -/
def handle_get_pot (w : BotguardWorld) (env : ProxyEnv) (st : ManagerState)
    (method path : String) (parsedBody : Option Json) : ServerReply :=
  match validate_deprecated_fields_middleware method path parsedBody with
  | .reject status error context => .rejected status error context
  | .forward =>
    match parsedBody with
    | none => .badJson
    | some j =>
      match parsePotRequest j with
      | none => .badJson
      | some request => .potResult (generate_pot_token w env st request)

/-! ### Shared lemmas on the association-list cache model -/

/-- Filtering keeps the first `find?`-match when the match satisfies the
filter: elements dropped before it cannot match, so it stays first. -/
theorem find?_filter_of_find? {α : Type} (p q : α → Bool) :
    ∀ (m : List α) (a : α), m.find? q = some a → p a = true →
      (m.filter p).find? q = some a := by
  intro m
  induction m with
  | nil => intro a h _; simp [List.find?] at h
  | cons x t ih =>
    intro a h hp
    cases hqx : q x with
    | true =>
      rw [List.find?_cons_of_pos _ hqx] at h
      injection h with hxa
      subst hxa
      simp [List.filter_cons, hp, List.find?_cons_of_pos _ hqx]
    | false =>
      rw [List.find?_cons_of_neg _ (by simp [hqx])] at h
      have ih' := ih a h hp
      cases hpx : p x with
      | true =>
        rw [List.filter_cons_of_pos hpx,
          List.find?_cons_of_neg _ (by simp [hqx])]
        exact ih'
      | false =>
        rw [List.filter_cons_of_neg (by simp [hpx])]
        exact ih'

/-- A `lookupA` hit surviving a `filter` is still the hit afterwards. -/
theorem lookupA_filter {α : Type} (m : List (String × α)) (k : String) (v : α)
    (p : String × α → Bool) (h : lookupA m k = some v) (hp : p (k, v) = true) :
    lookupA (m.filter p) k = some v := by
  unfold lookupA at h ⊢
  cases hf : m.find? (fun q => q.1 == k) with
  | none => rw [hf] at h; simp at h
  | some pr =>
    rw [hf] at h
    simp at h
    have hk : pr.1 = k := by
      have := List.find?_some hf
      simpa using this
    have hpr : pr = (k, v) := by
      cases pr
      simp_all
    subst hpr
    rw [find?_filter_of_find? p _ m (k, v) hf hp]
    rfl

/-- Looking up the key just inserted returns the inserted value. -/
theorem lookupA_insertA_self {α : Type} (m : List (String × α)) (k : String)
    (v : α) : lookupA (insertA m k v) k = some v := by
  simp [lookupA, insertA, List.find?_cons_of_pos]

/-- A `lookupA` hit is a member of the list, with the looked-up key. -/
theorem lookupA_mem {α : Type} (m : List (String × α)) (k : String) (v : α)
    (h : lookupA m k = some v) : (k, v) ∈ m := by
  unfold lookupA at h
  cases hf : m.find? (fun q => q.1 == k) with
  | none => rw [hf] at h; simp at h
  | some pr =>
    rw [hf] at h
    simp at h
    have hk : pr.1 = k := by
      have := List.find?_some hf
      simpa using this
    have hpr : pr = (k, v) := by
      cases pr
      simp_all
    subst hpr
    exact List.mem_of_find?_eq_some hf

/-! ### Lemmas about `generate_pot_token` -/

/-- After a successful `generate_pot_token` with an explicit content binding,
the session cache holds the returned token under that binding (the fresh-mint
path just inserted it; the cache-hit path found it there). -/
theorem generate_ok_session_entry (w : BotguardWorld) (env : ProxyEnv)
    (st : ManagerState) (req : PotRequest) (X : String) (out : GenerateOutcome)
    (hX : req.content_binding = some X)
    (h : generate_pot_token w env st req = .ok out) :
    lookupA out.state.sessionCache X =
      some ⟨out.response.po_token, out.response.content_binding,
        out.response.expires_at⟩ := by
  simp only [generate_pot_token, get_content_binding, hX] at h
  split at h
  · -- cache-hit branch
    next cached heq =>
    cases h
    by_cases hbp : req.bypass_cache.getD false = true
    · rw [if_pos hbp] at heq
      exact absurd heq (by simp)
    · rw [if_neg hbp] at heq
      exact heq
  · -- fresh-mint branch
    split at h
    · exact absurd h (by simp)
    next tm st2 _ =>
      split at h
      · exact absurd h (by simp)
      next session_data _ =>
        cases h
        exact lookupA_insertA_self _ _ _

/-- A request with `bypass_cache = true` that succeeds necessarily took the
fresh-mint path. -/
theorem generate_bypass_minted (w : BotguardWorld) (env : ProxyEnv)
    (st : ManagerState) (req : PotRequest) (out : GenerateOutcome)
    (hbp : req.bypass_cache = some true)
    (h : generate_pot_token w env st req = .ok out) : out.minted = true := by
  simp only [generate_pot_token, hbp] at h
  split at h
  · exact absurd h (by simp)
  · split at h
    · next cached heq => exact absurd heq (by simp)
    · split at h
      · exact absurd h (by simp)
      · split at h
        · exact absurd h (by simp)
        · cases h; rfl

/-- A call without `bypass_cache` that finds an unexpired token in the session
cache is answered from the cache: same token, no mint. -/
theorem generate_cache_hit (w : BotguardWorld) (env : ProxyEnv)
    (st : ManagerState) (req : PotRequest) (X : String) (d : SessionData)
    (hX : req.content_binding = some X)
    (hbp : req.bypass_cache.getD false = false)
    (hd : lookupA st.sessionCache X = some d)
    (hfresh : w.now < d.expires_at) :
    generate_pot_token w env st req =
      .ok ⟨PotResponse.from_session_data d, cleanup_caches w.now st, false⟩ := by
  have hlook : lookupA (cleanup_caches w.now st).sessionCache X = some d := by
    unfold cleanup_caches
    exact lookupA_filter _ _ _ _ hd (by simpa using hfresh)
  simp only [generate_pot_token, get_content_binding, hX, hbp, if_false,
    Bool.false_eq_true, hlook]

/-- Mapping a value transformation over an association list commutes with
lookup. -/
theorem lookupA_map_value {α β : Type} (f : α → β) (m : List (String × α))
    (k : String) :
    lookupA (m.map (fun p => (p.1, f p.2))) k = (lookupA m k).map f := by
  induction m with
  | nil => rfl
  | cons x t ih =>
    unfold lookupA at ih ⊢
    rw [List.map_cons]
    cases hx : (x.1 == k) with
    | true =>
      rw [List.find?_cons_of_pos (p := fun q => q.1 == k) (l := t) hx,
        List.find?_cons_of_pos (p := fun q => q.1 == k)
          (l := t.map (fun p => (p.1, f p.2))) (by simpa using hx)]
      rfl
    | false =>
      rw [List.find?_cons_of_neg (p := fun q => q.1 == k) (l := t)
          (by simp [hx]),
        List.find?_cons_of_neg (p := fun q => q.1 == k)
          (l := t.map (fun p => (p.1, f p.2))) (by simp [hx])]
      exact ih

/-- `mint_pot_token` binds the token to exactly the identifier it was given. -/
theorem mint_pot_token_binding (w : BotguardWorld) (cb : String)
    (d : SessionData) (h : mint_pot_token w cb = .ok d) :
    d.content_binding = cb := by
  unfold mint_pot_token at h
  split at h
  · exact absurd h (by simp)
  · cases h; rfl

/-! ### Claim theorems -/

/-- C4: For all eight combinations of (proxy set, source_address set,
remote_host set), the derived minter-cache key follows the spec table: a
`remote_host` supplied inside the Innertube context wins verbatim; otherwise
`"{proxy}:{source_address}"`, `"proxy:{proxy}"`, `"source:{source_address}"`,
or `"default"`. -/
theorem claim_C4_cache_key_table (p s rh : Option String) :
    create_cache_key
      (create_proxy_spec ⟨none, none, none⟩
        ⟨none, p, none, none, none, none,
          rh.map (fun h =>
            Json.obj [("client", Json.obj [("remoteHost", Json.str h)])]), s⟩)
      ⟨none, p, none, none, none, none,
        rh.map (fun h =>
          Json.obj [("client", Json.obj [("remoteHost", Json.str h)])]), s⟩ =
    match rh, p, s with
    | some h, _, _ => h
    | none, some proxy, some source => proxy ++ ":" ++ source
    | none, some proxy, none => "proxy:" ++ proxy
    | none, none, some source => "source:" ++ source
    | none, none, none => "default" := by
  cases rh <;> cases p <;> cases s <;> rfl

/-- C7: With no proxy in the request, the effective proxy URL is the first set
variable among `HTTPS_PROXY`, `HTTP_PROXY`, `ALL_PROXY` in that order; a
request proxy takes precedence over all three. -/
theorem claim_C7_proxy_priority (env : ProxyEnv) (req : PotRequest) :
    (create_proxy_spec env req).proxy_url =
      match req.proxy with
      | some p => some p
      | none => env.https_proxy <|> env.http_proxy <|> env.all_proxy := by
  unfold create_proxy_spec
  cases hp : req.proxy with
  | some p =>
    cases hs : req.source_address <;>
      simp [ProxySpec.new, ProxySpec.with_proxy, ProxySpec.with_source_address,
        ProxySpec.with_disable_tls_verification]
  | none =>
    cases he : env.https_proxy <|> env.http_proxy <|> env.all_proxy <;>
      cases hs : req.source_address <;>
        simp [ProxySpec.new, ProxySpec.with_proxy,
          ProxySpec.with_source_address,
          ProxySpec.with_disable_tls_verification]

/-- C8: Every minter entry built by `create_token_minter_entry` has
`mint_refresh_threshold = min 300 (estimated_ttl_secs / 2)`, hence
`mint_refresh_threshold ≤ estimated_ttl_secs`. -/
theorem claim_C8_threshold_invariant (w : BotguardWorld) (expires_at : Int)
    (lifetime_secs : Nat) (e : TokenMinterEntry)
    (h : create_token_minter_entry w expires_at lifetime_secs = .ok e) :
    e.mint_refresh_threshold = min 300 (lifetime_secs / 2) ∧
      e.estimated_ttl_secs = lifetime_secs ∧
      e.mint_refresh_threshold ≤ e.estimated_ttl_secs := by
  unfold create_token_minter_entry at h
  split at h
  · exact absurd h (by simp)
  · cases h
    refine ⟨rfl, rfl, ?_⟩
    exact le_trans (min_le_right _ _) (Nat.div_le_self _ _)

/-- A fully healthy oracle: clock at 1000, expiry 2000 with lifetime 600,
every mint succeeds, visitor data fetch succeeds. -/
def exampleWorld : BotguardWorld :=
  ⟨1000, some (2000, 600), none, fun _ => .ok "minted_token",
    .ok "visitor_data_sample"⟩

/-- Witness for C8 at `lifetime_secs = 7` (threshold `7 / 2 = 3`). -/
theorem claim_C8_witness :
    (⟨2000, "minted_token", 7, 3, none⟩ :
        TokenMinterEntry).mint_refresh_threshold = min 300 (7 / 2) ∧
      (⟨2000, "minted_token", 7, 3, none⟩ :
        TokenMinterEntry).estimated_ttl_secs = 7 ∧
      (⟨2000, "minted_token", 7, 3, none⟩ :
          TokenMinterEntry).mint_refresh_threshold ≤
        (⟨2000, "minted_token", 7, 3, none⟩ :
          TokenMinterEntry).estimated_ttl_secs :=
  claim_C8_threshold_invariant exampleWorld 2000 7 _ rfl

/-- C9: with a `content_binding` it is used verbatim; without one the
identifier comes from the Innertube visitor-data fetch, and the call fails
with a `VisitorData` error exactly when the fetched string is empty or
shorter than 10 bytes. -/
theorem claim_C9_identifier_resolution (w : BotguardWorld) (req : PotRequest) :
    (∀ b, req.content_binding = some b → get_content_binding w req = .ok b) ∧
    (req.content_binding = none → ∀ s, w.visitorData = .ok s →
      ((s.utf8ByteSize < 10 →
        ∃ reason ctx,
          get_content_binding w req = .error (.visitorData reason ctx)) ∧
       (10 ≤ s.utf8ByteSize → get_content_binding w req = .ok s))) := by
  constructor
  · intro b hb
    simp [get_content_binding, hb]
  · intro hnone s hs
    constructor
    · intro hshort
      simp only [get_content_binding, hnone, generate_visitor_data, hs]
      by_cases h0 : s.utf8ByteSize = 0
      · exact ⟨"Generated visitor data is empty",
          some "visitor_data_generation", by simp [h0]⟩
      · exact ⟨"Generated visitor data is too short",
          some "visitor_data_validation", by simp [h0, hshort]⟩
    · intro hlong
      have h0 : ¬ s.utf8ByteSize = 0 := by omega
      have hlt : ¬ s.utf8ByteSize < 10 := by omega
      simp only [get_content_binding, hnone, generate_visitor_data, hs]
      simp [h0, hlt]

/-- Witness for C9: verbatim binding, a long-enough visitor fetch, and a
too-short visitor fetch, at concrete inputs. -/
theorem claim_C9_witness :
    get_content_binding exampleWorld
        ⟨some "dQw4w9WgXcQ", none, none, none, none, none, none, none⟩ =
      .ok "dQw4w9WgXcQ" ∧
    get_content_binding exampleWorld
        ⟨none, none, none, none, none, none, none, none⟩ =
      .ok "visitor_data_sample" ∧
    ∃ reason ctx,
      get_content_binding
          ⟨1000, some (2000, 600), none, fun _ => .ok "minted_token",
            .ok "short"⟩
          ⟨none, none, none, none, none, none, none, none⟩ =
        .error (.visitorData reason ctx) :=
  ⟨(claim_C9_identifier_resolution exampleWorld _).1 _ rfl,
   ((claim_C9_identifier_resolution exampleWorld _).2 rfl _ rfl).2 (by decide),
   ((claim_C9_identifier_resolution _ _).2 rfl "short" rfl).1 (by decide)⟩

/-- C6: `invalidate_integrity_tokens` keeps the minter-cache key set and the
session cache unchanged, rewrites every entry's expiry to the epoch origin
leaving all other fields intact, and the rewritten entries read as expired at
any positive clock. -/
theorem claim_C6_invalidate_integrity (st : ManagerState) :
    get_minter_cache_keys (invalidate_integrity_tokens st) =
        get_minter_cache_keys st ∧
    (invalidate_integrity_tokens st).sessionCache = st.sessionCache ∧
    (∀ k, lookupA (invalidate_integrity_tokens st).minterCache k =
      (lookupA st.minterCache k).map (fun e => { e with expiry := 0 })) ∧
    (∀ k e, lookupA (invalidate_integrity_tokens st).minterCache k = some e →
      ∀ now : Int, 0 < now → e.is_expired now = true) := by
  have hmap : ∀ k, lookupA (invalidate_integrity_tokens st).minterCache k =
      (lookupA st.minterCache k).map (fun e => { e with expiry := 0 }) := by
    intro k
    unfold invalidate_integrity_tokens
    exact lookupA_map_value (fun e => { e with expiry := 0 }) st.minterCache k
  refine ⟨?_, rfl, hmap, ?_⟩
  · simp [get_minter_cache_keys, keysA, invalidate_integrity_tokens]
  · intro k e hk now hnow
    rw [hmap k] at hk
    cases hst : lookupA st.minterCache k with
    | none => rw [hst] at hk; simp at hk
    | some e0 =>
      rw [hst] at hk
      simp at hk
      subst hk
      simp [TokenMinterEntry.is_expired]
      omega

/-- Witness for C6 at a one-entry minter cache and clock 5. -/
theorem claim_C6_witness :
    (⟨0, "it_token", 600, 300, none⟩ : TokenMinterEntry).is_expired 5 = true :=
  (claim_C6_invalidate_integrity
      ⟨[], [("default", ⟨2000, "it_token", 600, 300, none⟩)]⟩).2.2.2
    "default" _ rfl 5 (by norm_num)

/-- C1 counterexample world: the declared expiry 5 is before the clock 10, so
the workaround reinitializes and re-queries; the re-queried expiry 7 is still
before the clock. -/
def stalePastWorld : BotguardWorld :=
  ⟨10, some (5, 100), some (7, 100), fun _ => .ok "it_tok",
    .ok "visitor_data_sample"⟩

/-- C1 counterexample: with a still-past re-queried expiry (7 < now = 10) the
refresh path does NOT fail with `TokenGeneration` — it succeeds and builds a
minter entry whose expiry is already past, contradicting the claim. -/
theorem claim_C1_counterexample :
    generate_token_minter stalePastWorld =
        .ok (⟨7, "it_tok", 100, 50, none⟩, true) ∧
      (7 : Int) < stalePastWorld.now := by
  constructor
  · rfl
  · norm_num [stalePastWorld]

/-- C1 (amended): the refresh path reinitializes only when
`valid_until < now` strictly (at `valid_until = now` the entry is built from
the original expiry without reinitialization); after reinitialization the
expiry is re-queried, and the call fails with `TokenGeneration` only when that
re-query itself fails — when it succeeds a minter entry is built from the
re-queried expiry even if it is still in the past. -/
theorem claim_C1_minter_refresh_amended (w : BotguardWorld) (v : Int) (l : Nat)
    (tok : String)
    (hinfo : w.expiryInfo = some (v, l))
    (htok : w.mint "integrity_token_request" = .ok tok) :
    (w.now ≤ v →
      generate_token_minter w =
        .ok (⟨v, tok, l, min 300 (l / 2), none⟩, false)) ∧
    (v < w.now → ∀ v2 l2, w.expiryInfoAfterReinit = some (v2, l2) →
      generate_token_minter w =
        .ok (⟨v2, tok, l2, min 300 (l2 / 2), none⟩, true)) ∧
    (v < w.now → w.expiryInfoAfterReinit = none →
      generate_token_minter w =
        .error (Err.token_generation
          ("Cannot get BotGuard expiry info after reinitialization: "
            ++ (Err.token_generation "Cannot get BotGuard expiry info").render))) := by
  refine ⟨?_, ?_, ?_⟩
  · intro hle
    have hnot : ¬ v < w.now := by omega
    simp [generate_token_minter, get_botguard_expiry, hinfo, hnot,
      create_token_minter_entry, htok, TokenMinterEntry.new]
  · intro hlt v2 l2 hafter
    simp [generate_token_minter, get_botguard_expiry, hinfo, hlt, hafter,
      create_token_minter_entry, htok, TokenMinterEntry.new]
  · intro hlt hafter
    simp [generate_token_minter, get_botguard_expiry, hinfo, hlt, hafter,
      create_token_minter_entry, htok, Err.token_generation]

/-- Witness for the amended C1 at a healthy world (expiry 2000 ≥ clock 1000:
no reinitialization, entry from the original expiry). -/
theorem claim_C1_witness :
    generate_token_minter exampleWorld =
      .ok (⟨2000, "minted_token", 600, 300, none⟩, false) :=
  (claim_C1_minter_refresh_amended exampleWorld 2000 600 "minted_token"
    rfl rfl).1 (by norm_num [exampleWorld])

/-- C2: a `POST /get_pot` whose JSON body object contains the exact key
`data_sync_id` or `visitor_data` is rejected with 400 and context
`deprecated_field_validation` before the mint path runs; the match is
case-sensitive, so a body keyed `Data_Sync_Id` is forwarded into the handler
and reaches `generate_pot_token`. -/
theorem claim_C2_deprecated_field_rejection :
    (∀ (fields : List (String × Json)) (w : BotguardWorld) (env : ProxyEnv)
        (st : ManagerState),
      ((Json.obj fields).containsKey "data_sync_id" ||
        (Json.obj fields).containsKey "visitor_data") = true →
      ∃ msg, handle_get_pot w env st "POST" "/get_pot"
          (some (Json.obj fields)) =
        .rejected 400 msg "deprecated_field_validation") ∧
    (∀ (w : BotguardWorld) (env : ProxyEnv) (st : ManagerState),
      handle_get_pot w env st "POST" "/get_pot"
          (some (Json.obj
            [("Data_Sync_Id", Json.str "x"),
             ("content_binding", Json.str "y")])) =
        .potResult (generate_pot_token w env st
          ⟨some "y", none, none, none, none, none, none, none⟩)) := by
  constructor
  · intro fields w env st hdep
    cases hd : (Json.obj fields).containsKey "data_sync_id" with
    | true =>
      refine ⟨"data_sync_id is deprecated, use content_binding instead", ?_⟩
      simp [handle_get_pot, validate_deprecated_fields_middleware, Json.isObj,
        hd]
    | false =>
      rw [hd] at hdep
      simp at hdep
      refine ⟨"visitor_data is deprecated, use content_binding instead", ?_⟩
      simp [handle_get_pot, validate_deprecated_fields_middleware, Json.isObj,
        hd, hdep]
  · intro w env st
    rfl

/-- Witness for C2: a concrete deprecated body is rejected. -/
theorem claim_C2_witness :
    ∃ msg, handle_get_pot exampleWorld ⟨none, none, none⟩ ⟨[], []⟩
        "POST" "/get_pot"
        (some (Json.obj
          [("data_sync_id", Json.str "x"), ("content_binding", Json.str "y")])) =
      .rejected 400 msg "deprecated_field_validation" :=
  claim_C2_deprecated_field_rejection.1
    [("data_sync_id", Json.str "x"), ("content_binding", Json.str "y")]
    exampleWorld ⟨none, none, none⟩ ⟨[], []⟩ (by decide)

/-- Well-formedness of the session cache: every stored token is keyed by its
own content binding. `generate_pot_token` maintains this
(`generate_preserves_wf`); only the CLI file-cache import could break it. -/
def sessionCacheWF (st : ManagerState) : Prop :=
  ∀ p ∈ st.sessionCache, p.2.content_binding = p.1

/-- `get_or_create_token_minter` never touches the session cache. -/
theorem get_or_create_sessionCache (w : BotguardWorld) (st : ManagerState)
    (key : String) (tm : TokenMinterEntry) (st' : ManagerState)
    (h : get_or_create_token_minter w st key = .ok (tm, st')) :
    st'.sessionCache = st.sessionCache := by
  unfold get_or_create_token_minter mint_new_token_minter at h
  split at h
  · split at h
    · split at h
      · exact absurd h (by simp)
      · cases h; rfl
    · cases h; rfl
  · split at h
    · exact absurd h (by simp)
    · cases h; rfl

/-- `generate_pot_token` preserves session-cache well-formedness. -/
theorem generate_preserves_wf (w : BotguardWorld) (env : ProxyEnv)
    (st : ManagerState) (req : PotRequest) (out : GenerateOutcome)
    (hwf : sessionCacheWF st)
    (h : generate_pot_token w env st req = .ok out) :
    sessionCacheWF out.state := by
  have hwf1 : sessionCacheWF (cleanup_caches w.now st) := by
    intro p hp
    exact hwf p (List.mem_of_mem_filter hp)
  simp only [generate_pot_token] at h
  split at h
  · exact absurd h (by simp)
  · split at h
    · next cached heq =>
      cases h
      exact hwf1
    · split at h
      · exact absurd h (by simp)
      · next tm st2 hminter =>
        split at h
        · exact absurd h (by simp)
        · next session_data hmint =>
          cases h
          intro p hp
          rcases List.mem_cons.mp hp with hphead | hptail
          · subst hphead
            exact mint_pot_token_binding w _ _ hmint
          · have hst2 := get_or_create_sessionCache w _ _ tm st2 hminter
            have : p ∈ st2.sessionCache := List.mem_of_mem_filter hptail
            rw [hst2] at this
            exact hwf1 p this

/-- C3: with the session cache well-formed, any successful `generate` on a
request carrying a non-empty `content_binding = X` returns a token whose
`content_binding` is `X`, on both the cache-hit and the fresh-mint path. -/
theorem claim_C3_binding_roundtrip (w : BotguardWorld) (env : ProxyEnv)
    (st : ManagerState) (req : PotRequest) (X : String) (out : GenerateOutcome)
    (hwf : sessionCacheWF st)
    (hX : req.content_binding = some X) (hne : X ≠ "")
    (h : generate_pot_token w env st req = .ok out) :
    out.response.content_binding = X := by
  simp only [generate_pot_token, get_content_binding, hX] at h
  split at h
  · next cached heq =>
    cases h
    by_cases hbp : req.bypass_cache.getD false = true
    · rw [if_pos hbp] at heq
      exact absurd heq (by simp)
    · rw [if_neg hbp] at heq
      have hmem := lookupA_mem _ _ _ heq
      have hmem' : (X, cached) ∈ st.sessionCache :=
        List.mem_of_mem_filter hmem
      exact hwf _ hmem'
  · split at h
    · exact absurd h (by simp)
    · split at h
      · exact absurd h (by simp)
      · next session_data hmint =>
        cases h
        exact mint_pot_token_binding w _ _ hmint

/-- Witness for C3: a concrete fresh mint with binding `dQw4w9WgXcQ`. -/
theorem claim_C3_witness :
    (⟨⟨"minted_token", "dQw4w9WgXcQ", 22600⟩,
      ⟨[("dQw4w9WgXcQ", ⟨"minted_token", "dQw4w9WgXcQ", 22600⟩)],
       [("default", ⟨2000, "minted_token", 600, 300, none⟩)]⟩,
      true⟩ : GenerateOutcome).response.content_binding = "dQw4w9WgXcQ" :=
  claim_C3_binding_roundtrip exampleWorld ⟨none, none, none⟩ ⟨[], []⟩
    ⟨some "dQw4w9WgXcQ", none, none, none, none, none, none, none⟩
    "dQw4w9WgXcQ" _
    (fun p hp => absurd hp (List.not_mem_nil p))
    rfl (by decide) rfl

/-- C5: without `bypass_cache`, a second `generate` for the same
`content_binding`, issued while the first token is unexpired, returns the same
`po_token` and `expires_at` and is answered from the token cache without
minting again. -/
theorem claim_C5_cache_hit_equality (w1 w2 : BotguardWorld)
    (env1 env2 : ProxyEnv) (st0 : ManagerState) (req1 req2 : PotRequest)
    (X : String) (out1 : GenerateOutcome)
    (hX1 : req1.content_binding = some X)
    (hX2 : req2.content_binding = some X)
    (hbp1 : req1.bypass_cache.getD false = false)
    (hbp2 : req2.bypass_cache.getD false = false)
    (h1 : generate_pot_token w1 env1 st0 req1 = .ok out1)
    (hfresh : w2.now < out1.response.expires_at) :
    ∃ out2, generate_pot_token w2 env2 out1.state req2 = .ok out2 ∧
      out2.response.po_token = out1.response.po_token ∧
      out2.response.expires_at = out1.response.expires_at ∧
      out2.minted = false := by
  have hentry := generate_ok_session_entry w1 env1 st0 req1 X out1 hX1 h1
  exact ⟨_, generate_cache_hit w2 env2 out1.state req2 X _ hX2 hbp2 hentry
    hfresh, rfl, rfl, rfl⟩

/-- A later clock for the second call of the C5 / C10 witnesses, with a
different mint oracle (whose output must not appear in the cached reply). -/
def laterWorld : BotguardWorld :=
  ⟨2000, some (9000, 600), none, fun _ => .ok "other_token",
    .ok "visitor_data_sample"⟩

/-- Witness for C5: concrete first mint at clock 1000, second call at clock
2000 < 22600 served from the cache. -/
theorem claim_C5_witness :
    ∃ out2, generate_pot_token laterWorld ⟨none, none, none⟩
        ⟨[("dQw4w9WgXcQ", ⟨"minted_token", "dQw4w9WgXcQ", 22600⟩)],
         [("default", ⟨2000, "minted_token", 600, 300, none⟩)]⟩
        ⟨some "dQw4w9WgXcQ", none, none, none, none, none, none, none⟩ =
          .ok out2 ∧
      out2.response.po_token = "minted_token" ∧
      out2.response.expires_at = 22600 ∧
      out2.minted = false :=
  claim_C5_cache_hit_equality exampleWorld laterWorld ⟨none, none, none⟩
    ⟨none, none, none⟩ ⟨[], []⟩
    ⟨some "dQw4w9WgXcQ", none, none, none, none, none, none, none⟩
    ⟨some "dQw4w9WgXcQ", none, none, none, none, none, none, none⟩
    "dQw4w9WgXcQ"
    ⟨⟨"minted_token", "dQw4w9WgXcQ", 22600⟩,
      ⟨[("dQw4w9WgXcQ", ⟨"minted_token", "dQw4w9WgXcQ", 22600⟩)],
       [("default", ⟨2000, "minted_token", 600, 300, none⟩)]⟩,
      true⟩
    rfl rfl rfl rfl rfl (by norm_num [laterWorld])

/-- C10: a successful `generate` with `bypass_cache = true` takes the
fresh-mint path and still stores the minted token in the token cache under its
identifier (overwriting any previous entry), so a later `generate` without
`bypass_cache` for the same identifier is served that token from the cache. -/
theorem claim_C10_bypass_still_caches (w1 : BotguardWorld) (env1 : ProxyEnv)
    (st0 : ManagerState) (req1 : PotRequest) (X : String)
    (out1 : GenerateOutcome)
    (hX1 : req1.content_binding = some X)
    (hbp1 : req1.bypass_cache = some true)
    (h1 : generate_pot_token w1 env1 st0 req1 = .ok out1) :
    lookupA out1.state.sessionCache X =
      some ⟨out1.response.po_token, out1.response.content_binding,
        out1.response.expires_at⟩ ∧
    out1.minted = true ∧
    (∀ (w2 : BotguardWorld) (env2 : ProxyEnv) (req2 : PotRequest),
      req2.content_binding = some X →
      req2.bypass_cache.getD false = false →
      w2.now < out1.response.expires_at →
      ∃ out2, generate_pot_token w2 env2 out1.state req2 = .ok out2 ∧
        out2.response.po_token = out1.response.po_token ∧
        out2.response.expires_at = out1.response.expires_at ∧
        out2.minted = false) := by
  have hentry := generate_ok_session_entry w1 env1 st0 req1 X out1 hX1 h1
  refine ⟨hentry, generate_bypass_minted w1 env1 st0 req1 out1 hbp1 h1, ?_⟩
  intro w2 env2 req2 hX2 hbp2 hfresh
  exact ⟨_, generate_cache_hit w2 env2 out1.state req2 X _ hX2 hbp2 hentry
    hfresh, rfl, rfl, rfl⟩

/-- Witness for C10: the bypass call overwrites a pre-existing unexpired cache
entry (`old_token`) with the freshly minted token. -/
theorem claim_C10_witness :
    lookupA (⟨[("dQw4w9WgXcQ", ⟨"minted_token", "dQw4w9WgXcQ", 22600⟩)],
        [("default", ⟨2000, "minted_token", 600, 300, none⟩)]⟩ :
          ManagerState).sessionCache "dQw4w9WgXcQ" =
      some ⟨"minted_token", "dQw4w9WgXcQ", 22600⟩ ∧
    ((⟨⟨"minted_token", "dQw4w9WgXcQ", 22600⟩,
      ⟨[("dQw4w9WgXcQ", ⟨"minted_token", "dQw4w9WgXcQ", 22600⟩)],
       [("default", ⟨2000, "minted_token", 600, 300, none⟩)]⟩,
      true⟩ : GenerateOutcome)).minted = true :=
  ⟨((claim_C10_bypass_still_caches exampleWorld ⟨none, none, none⟩
      ⟨[("dQw4w9WgXcQ", ⟨"old_token", "dQw4w9WgXcQ", 99999⟩)], []⟩
      ⟨some "dQw4w9WgXcQ", none, some true, none, none, none, none, none⟩
      "dQw4w9WgXcQ"
      ⟨⟨"minted_token", "dQw4w9WgXcQ", 22600⟩,
        ⟨[("dQw4w9WgXcQ", ⟨"minted_token", "dQw4w9WgXcQ", 22600⟩)],
         [("default", ⟨2000, "minted_token", 600, 300, none⟩)]⟩,
        true⟩
      rfl rfl rfl).1),
   ((claim_C10_bypass_still_caches exampleWorld ⟨none, none, none⟩
      ⟨[("dQw4w9WgXcQ", ⟨"old_token", "dQw4w9WgXcQ", 99999⟩)], []⟩
      ⟨some "dQw4w9WgXcQ", none, some true, none, none, none, none, none⟩
      "dQw4w9WgXcQ"
      ⟨⟨"minted_token", "dQw4w9WgXcQ", 22600⟩,
        ⟨[("dQw4w9WgXcQ", ⟨"minted_token", "dQw4w9WgXcQ", 22600⟩)],
         [("default", ⟨2000, "minted_token", 600, 300, none⟩)]⟩,
        true⟩
      rfl rfl rfl).2.1)⟩
